/-
Verification of the declarative resource-reconciliation contract for the
kops Azure managed-disk task, together with the generated Azure
PrivateLinkResources REST client that ships in the same tree.

The repository's sources contain:
  * the generated client `privatelinkresources_client.go` (embedded below as
    `PrivateLinkResourcesClient.*`), and
  * the unit tests `disk_test.go` for the `azuretasks.Disk` reconciler.
The `Disk` reconciler implementation itself (`Find`, `Normalize`,
`CheckChanges`, `Run`) is not part of the provided sources — only its tests
are — so those operations are modelled from the specification, as flagged in
their doc comments.
-/
import Mathlib

set_option autoImplicit false

namespace KopsAzure

/-- Decidable equality on `Except`, so that fallible results evaluate on
concrete inputs. -/
instance instDecEqExcept {ε α : Type} [DecidableEq ε] [DecidableEq α] :
    DecidableEq (Except ε α) := fun x y =>
  match x, y with
  | Except.ok a, Except.ok b =>
      if h : a = b then isTrue (by rw [h])
      else isFalse (by intro hh; cases hh; exact h rfl)
  | Except.ok _, Except.error _ => isFalse (by intro h; cases h)
  | Except.error _, Except.ok _ => isFalse (by intro h; cases h)
  | Except.error a, Except.error b =>
      if h : a = b then isTrue (by rw [h])
      else isFalse (by intro hh; cases hh; exact h rfl)

/-! ## Tags: string-keyed maps as association lists -/

/-- Association-list lookup for tag maps (`map[string]*string` in Go,
with only non-nil values exercised; the spec's data model is
"mapping from string key to string value"). -/
def tagsGet (m : List (String × String)) (k : String) : Option String :=
  (m.find? (fun p => p.1 = k)).map (·.2)

/-- Insert or overwrite one key in a tag map: if the key is present its value
is replaced in place, otherwise the pair is appended.  Values under every
other key are untouched. -/
def setTag (k v : String) : List (String × String) → List (String × String)
  | [] => [(k, v)]
  | (k', v') :: rest =>
      if k' = k then (k, v) :: rest else (k', v') :: setTag k v rest

/-! ## The Resource Descriptor (spec §3) -/

/-- Modelled from the spec: the `azuretasks.ResourceGroup` task type is not
under the provided sources; the spec describes a weak, by-name reference
("reference (by name) to a logical grouping entity"). -/
structure ResourceGroup where
  name : Option String
  deriving DecidableEq, Repr

/-- Modelled from the spec: the lifecycle enum "describing whether the
resource participates in create/update/delete during this reconciliation
pass, or is managed externally/read-only" (spec §3). -/
inductive Lifecycle where
  | sync
  | externalReadOnly
  deriving DecidableEq, Repr

/-- Modelled from the spec: the `azuretasks.Disk` descriptor is not under
the provided sources; fields follow the spec's Resource Descriptor data
model and the literals of `newTestDisk` (`Name`, `Lifecycle`,
`ResourceGroup`, `SizeGB`, `VolumeType`, `Tags`), with optional fields as
explicit `Option`s. -/
structure Disk where
  name : Option String
  lifecycle : Lifecycle
  resourceGroup : Option ResourceGroup
  sizeGB : Option Int
  volumeType : Option String
  tags : List (String × String)
  deriving DecidableEq, Repr

/-- The name carried by an optional change set (`changes.Name` with a nil
`changes` pointer carrying no name at all). -/
def changesName (c : Option Disk) : Option String :=
  c.bind Disk.name

/-! ## CheckChanges (spec §4.4) -/

/-- Modelled from the spec: `Disk.CheckChanges` is absent from the provided
sources (only its test `TestDiskCheckChanges` is present).  Rules of spec
§4.4: creation (`actual` nil) is legal iff `expected.Name` is non-nil;
update (`actual` non-nil) is legal iff `changes.Name` is nil.  It returns
only success or a descriptive validation error. -/
def Disk.CheckChanges (a e changes : Option Disk) : Except String Unit :=
  match a with
  | none =>
      match e with
      | none => Except.error "Required field Name"
      | some e' =>
          if e'.name.isSome then Except.ok () else Except.error "Required field Name"
  | some _ =>
      match changes with
      | none => Except.ok ()
      | some c =>
          if c.name.isSome then Except.error "Cannot change field Name" else Except.ok ()

/-! ## Normalize (spec §4.3) -/

/-- Modelled from the spec: the fixed process-wide identity tag key ("a
fixed key (e.g., cluster-name tag) whose value is injected into every
managed resource's tag set during Normalize", spec §6); `azure.TagClusterName`
is not under the provided sources. -/
def TagClusterName : String := "KubernetesCluster"

/-- Modelled from the spec: `Disk.Normalize` is absent from the provided
sources (only its use in `TestDiskRun` is present).  Spec §4.3: merges the
process-wide identity tag into `Tags` without overwriting caller-supplied
tag values for other keys; pure transformation.  The ambient cluster
identity is threaded in explicitly (spec §9). -/
def Disk.Normalize (identityTagValue : String) (d : Disk) : Disk :=
  { d with tags := setTag TagClusterName identityTagValue d.tags }

/-! ## The Cloud Gateway boundary (spec §6) -/

/-- The remote record held by the Cloud Gateway for one managed disk:
"includes at minimum: name, location, size, tags" (spec §6). -/
structure DiskRecord where
  name : String
  location : String
  sizeGB : Int
  tags : List (String × String)
  deriving DecidableEq, Repr

/-- The Cloud Gateway's store, keyed by (resource group name, resource
name). -/
abbrev CloudState : Type := List ((String × String) × DiskRecord)

/-- Outcome of `Get(resourceGroup, name)` at the Cloud Gateway boundary:
`remoteRecord | NotFound | error` (spec §6). -/
inductive GetResult where
  | found (r : DiskRecord)
  | notFound
  | transportError (msg : String)
  deriving DecidableEq, Repr

/-- The concrete Cloud Gateway `Get` over a store: a lookup that never has a
transport failure. -/
def cloudGet (cloud : CloudState) (group dname : String) : GetResult :=
  match (cloud.find? (fun p => p.1 = (group, dname))).map (·.2) with
  | some r => GetResult.found r
  | none => GetResult.notFound

/-- The concrete Cloud Gateway `Create`/create-or-update over a store: the
record most recently applied under a key shadows everything older. -/
def cloudCreateOrUpdate (cloud : CloudState) (group dname : String)
    (r : DiskRecord) : CloudState :=
  ((group, dname), r) :: cloud

/-! ## Find (spec §4.2) -/

/-- Modelled from the spec: `Disk.Find` is absent from the provided sources
(only its test `TestDiskFind` is present).  Spec §4.2: given identity only
(name + group), query the Cloud Gateway; nonexistence is an absent result
and not an error; an existing resource yields a fully populated actual
descriptor (size, tags, group); a transport failure is propagated as an
error.  A descriptor with no identity cannot be looked up at all. -/
def Disk.Find (get : String → String → GetResult) (d : Disk) :
    Except String (Option Disk) :=
  match d.resourceGroup.bind ResourceGroup.name, d.name with
  | some g, some n =>
      match get g n with
      | GetResult.notFound => Except.ok none
      | GetResult.transportError e => Except.error e
      | GetResult.found r =>
          Except.ok (some
            { name := some r.name
              lifecycle := d.lifecycle
              resourceGroup := some { name := some g }
              sizeGB := some r.sizeGB
              volumeType := d.volumeType
              tags := r.tags })
  | _, _ => Except.error "disk identity (name and resource group) is required"

/-! ## diff and Run (spec §4.5) -/

/-- Modelled from the spec: the change-set computation ("the computed delta
between actual and expected/desired state", Glossary) performed by the
reconciliation framework, which is not under the provided sources.  A field
of the change set is set exactly when the desired value differs from the
actual one. -/
def Disk.diff (a e : Disk) : Disk :=
  { name := if a.name = e.name then none else e.name
    lifecycle := e.lifecycle
    resourceGroup := if a.resourceGroup = e.resourceGroup then none else e.resourceGroup
    sizeGB := if a.sizeGB = e.sizeGB then none else e.sizeGB
    volumeType := if a.volumeType = e.volumeType then none else e.volumeType
    tags := if a.tags = e.tags then [] else e.tags }

/-- The remote record Run submits for a desired descriptor: name and size
from the descriptor, location from the ambient region, the fully merged
tags. -/
def Disk.toRecord (region : String) (d : Disk) : DiskRecord :=
  { name := d.name.getD ""
    location := region
    sizeGB := d.sizeGB.getD 0
    tags := d.tags }

/-- Everything one reconciliation pass leaves behind: the surfaced error if
any, the Cloud Gateway store afterwards, how many create-or-update calls the
pass issued to the Cloud Gateway, and the caller's descriptor after the
pass. -/
structure RunOutcome where
  error : Option String
  cloud : CloudState
  mutationCalls : Nat
  disk : Disk
  deriving DecidableEq, Repr

/-- Modelled from the spec: `Disk.Run` / the reconciliation pass is absent
from the provided sources (only its test `TestDiskRun` is present).  Spec
§4.5: Normalize → Find/diff (producing `changes`) → CheckChanges →
create-or-update apply step, in that order; if CheckChanges fails, Run fails
immediately without calling the Cloud Gateway; on success it issues exactly
one create-or-update call carrying the fully merged desired state. -/
def Disk.Run (identityTagValue region : String) (cloud : CloudState)
    (d : Disk) : RunOutcome :=
  let dn := d.Normalize identityTagValue
  match dn.Find (cloudGet cloud) with
  | Except.error e =>
      { error := some e, cloud := cloud, mutationCalls := 0, disk := dn }
  | Except.ok actual =>
      let changes := actual.map (fun a => Disk.diff a dn)
      match Disk.CheckChanges actual (some dn) changes with
      | Except.error e =>
          { error := some e, cloud := cloud, mutationCalls := 0, disk := dn }
      | Except.ok _ =>
          { error := none
            cloud := cloudCreateOrUpdate cloud
              ((dn.resourceGroup.bind ResourceGroup.name).getD "")
              (dn.name.getD "") (dn.toRecord region)
            mutationCalls := 1
            disk := dn }

/-- The desired descriptor of `newTestDisk` in the tests: name `"disk"`,
group `"rg"`, size 32, tags `{"key": "value"}`. -/
def testDisk : Disk :=
  { name := some "disk"
    lifecycle := Lifecycle.sync
    resourceGroup := some { name := some "rg" }
    sizeGB := some 32
    volumeType := some "StandardSSD_LRS"
    tags := [("key", "value")] }

/-! ## The generated PrivateLinkResources client
(`privatelinkresources_client.go`, in scope as source code) -/

/-- The UTF-8 byte encoding of one character, as byte values.  Go strings are
UTF-8 byte sequences and `url.PathEscape` operates on bytes. -/
def utf8Bytes (c : Char) : List Nat :=
  let v := c.toNat
  if v < 0x80 then [v]
  else if v < 0x800 then
    [0xC0 + v / 0x40, 0x80 + v % 0x40]
  else if v < 0x10000 then
    [0xE0 + v / 0x1000, 0x80 + v / 0x40 % 0x40, 0x80 + v % 0x40]
  else
    [0xF0 + v / 0x40000, 0x80 + v / 0x1000 % 0x40, 0x80 + v / 0x40 % 0x40,
      0x80 + v % 0x40]

/-- Go `net/url.shouldEscape` for mode `encodePathSegment`: alphanumerics and
`- _ . ~` are never escaped; of `$ & + , / : ; = ? @` exactly `/ ; , ?` are
escaped; every other byte is escaped. -/
def shouldEscapePathSegment (c : Nat) : Bool :=
  if (97 ≤ c && c ≤ 122) || (65 ≤ c && c ≤ 90) || (48 ≤ c && c ≤ 57) then
    false
  else if c = 45 || c = 95 || c = 46 || c = 126 then
    false
  else if c = 36 || c = 38 || c = 43 || c = 44 || c = 47 || c = 58 ||
      c = 59 || c = 61 || c = 63 || c = 64 then
    c = 44 || c = 47 || c = 59 || c = 63
  else
    true

/-- Upper-case hexadecimal digit, as in Go `net/url`'s `upperhex`. -/
def upperhexDigit (n : Nat) : Char :=
  if n < 10 then Char.ofNat (48 + n) else Char.ofNat (55 + n)

/-- Go `url.PathEscape`: percent-encode every byte of the UTF-8 encoding
that `shouldEscape(·, encodePathSegment)` selects, with upper-case hex. -/
def pathEscape (s : String) : String :=
  String.mk ((s.data.map utf8Bytes).flatten.foldr
    (fun b acc =>
      if shouldEscapePathSegment b then
        '%' :: upperhexDigit (b / 16) :: upperhexDigit (b % 16) :: acc
      else
        Char.ofNat b :: acc)
    [])

/-- Replacement worker over character lists.  The fuel only bounds the
recursion; one unit is spent per step and every step consumes at least one
input character when the pattern is non-empty, so fuel `l.length` is never
exhausted at the call site below. -/
def replaceAllAux (pat rep : List Char) : Nat → List Char → List Char
  | _, [] => []
  | 0, l => l
  | fuel + 1, c :: rest =>
      if pat.isPrefixOf (c :: rest) then
        rep ++ replaceAllAux pat rep fuel ((c :: rest).drop pat.length)
      else
        c :: replaceAllAux pat rep fuel rest

/-- Go `strings.ReplaceAll s pat rep` for the non-empty literal patterns the
generated code uses: replaces every non-overlapping occurrence of `pat`,
scanning left to right. -/
def replaceAll (s pat rep : String) : String :=
  if pat.data.isEmpty then s
  else String.mk (replaceAllAux pat.data rep.data s.data.length s.data)

/-- The generated client, whose own state is its subscription ID (the `arm.Client` internals are the transport collaborator,
out of scope per spec §1). -/
structure PrivateLinkResourcesClient where
  subscriptionID : String
  deriving DecidableEq, Repr

/-- The URL path template of `listByStorageAccountCreateRequest`. -/
def urlPathTemplate : String :=
  "/subscriptions/\x7bsubscriptionId\x7d/resourceGroups/\x7bresourceGroupName\x7d/providers/Microsoft.Storage/storageAccounts/\x7baccountName\x7d/privateLinkResources"

/-- The HTTP request the generated code builds: method, URL path (endpoint
joining belongs to the transport, out of scope), query parameters and
headers. -/
structure Request where
  method : String
  urlPath : String
  query : List (String × String)
  headers : List (String × List String)
  deriving DecidableEq, Repr

/-- Embeds `listByStorageAccountCreateRequest`: validates that the three path
parameters are non-empty (in source order: resourceGroupName, accountName,
client.subscriptionID), substitutes their path-escaped values into the
template, and builds a GET request with `api-version=2024-01-01` and an
`Accept: application/json` header. -/
def listByStorageAccountCreateRequest (client : PrivateLinkResourcesClient)
    (resourceGroupName accountName : String) : Except String Request :=
  let urlPath := urlPathTemplate
  if resourceGroupName = "" then
    Except.error "parameter resourceGroupName cannot be empty"
  else
    let urlPath := replaceAll urlPath "\x7bresourceGroupName\x7d"
      (pathEscape resourceGroupName)
    if accountName = "" then
      Except.error "parameter accountName cannot be empty"
    else
      let urlPath := replaceAll urlPath "\x7baccountName\x7d"
        (pathEscape accountName)
      if client.subscriptionID = "" then
        Except.error "parameter client.subscriptionID cannot be empty"
      else
        let urlPath := replaceAll urlPath "\x7bsubscriptionId\x7d"
          (pathEscape client.subscriptionID)
        Except.ok
          { method := "GET"
            urlPath := urlPath
            query := [("api-version", "2024-01-01")]
            headers := [("Accept", ["application/json"])] }

/-- One entry of the JSON list result (fields of
`PrivateLinkResource`, abstracted). -/
structure PrivateLinkResource where
  id : Option String
  name : Option String
  properties : Option String
  deriving DecidableEq, Repr

/-- The unmarshalled JSON payload `PrivateLinkResourceListResult`. -/
structure PrivateLinkResourceListResult where
  value : List PrivateLinkResource
  deriving DecidableEq, Repr

/-- The response struct `PrivateLinkResourcesClientListByStorageAccountResponse`. -/
structure ListByStorageAccountResponse where
  privateLinkResourceListResult : PrivateLinkResourceListResult
  deriving DecidableEq, Repr

/-- The Go zero value `PrivateLinkResourcesClientListByStorageAccountResponse{}`
(zero list result, nil slice). -/
def zeroListByStorageAccountResponse : ListByStorageAccountResponse :=
  { privateLinkResourceListResult := { value := [] } }

/-- Outcome of `client.internal.Pipeline().Do(req)`: a transport failure or
an HTTP response with a status code and a body. -/
inductive PipelineResult where
  | failure (msg : String)
  | response (statusCode : Nat) (body : String)
  deriving DecidableEq, Repr

/-- The error text `runtime.NewResponseError` derives from a non-200
response. -/
def responseErrorMessage (statusCode : Nat) : String :=
  "unexpected status code " ++ toString statusCode

/-- Embeds `listByStorageAccountHandleResponse`: unmarshal the body as JSON into
the list result; on unmarshal failure return the zero response and the
error. -/
def listByStorageAccountHandleResponse
    (unmarshal : String → Except String PrivateLinkResourceListResult)
    (body : String) : ListByStorageAccountResponse × Option String :=
  match unmarshal body with
  | Except.error e => (zeroListByStorageAccountResponse, some e)
  | Except.ok r => ({ privateLinkResourceListResult := r }, none)

/-- Embeds `ListByStorageAccount`: build the request (propagating its error), run
the pipeline (propagating its error), reject any status other than 200 OK
with a response error, and otherwise hand the response body to
`listByStorageAccountHandleResponse`.  The pipeline and the JSON
unmarshaller are the transport collaborators and are passed in. -/
def ListByStorageAccount (client : PrivateLinkResourcesClient)
    (resourceGroupName accountName : String)
    (pipeline : Request → PipelineResult)
    (unmarshal : String → Except String PrivateLinkResourceListResult) :
    ListByStorageAccountResponse × Option String :=
  match listByStorageAccountCreateRequest client resourceGroupName accountName with
  | Except.error e => (zeroListByStorageAccountResponse, some e)
  | Except.ok req =>
      match pipeline req with
      | PipelineResult.failure e => (zeroListByStorageAccountResponse, some e)
      | PipelineResult.response statusCode body =>
          if statusCode = 200 then
            listByStorageAccountHandleResponse unmarshal body
          else
            (zeroListByStorageAccountResponse,
              some (responseErrorMessage statusCode))

/-! ## Concrete values used by the theorems and witnesses -/

/-- The identity-only descriptor of `TestDiskFind`: name `"disk"` in group
`"rg"`, nothing else set. -/
def testDiskIdentity : Disk :=
  { name := some "disk"
    lifecycle := Lifecycle.sync
    resourceGroup := some { name := some "rg" }
    sizeGB := none
    volumeType := none
    tags := [] }

/-- The remote record applied in `TestDiskFind`: name `"disk"`, size 32,
tags `("key", "value")`. -/
def appliedRecord : DiskRecord :=
  { name := "disk", location := "eastus", sizeGB := 32,
    tags := [("key", "value")] }

/-- The stored record a rename attempt runs into: the remote disk under the
key `("rg", "disk")` carries the name `"olddisk"`. -/
def renamedRecord : DiskRecord :=
  { name := "olddisk", location := "eastus", sizeGB := 32,
    tags := [("key", "value"), (TagClusterName, "testCluster")] }

/-- The actual descriptor Find produces for `renamedRecord` when queried by
the normalized test disk. -/
def renamedActual : Disk :=
  { name := some "olddisk"
    lifecycle := Lifecycle.sync
    resourceGroup := some { name := some "rg" }
    sizeGB := some 32
    volumeType := some "StandardSSD_LRS"
    tags := [("key", "value"), (TagClusterName, "testCluster")] }

/-- The request `listByStorageAccountCreateRequest` builds for
`("sub", "rg", "acct")`. -/
def builtRequest : Request :=
  { method := "GET"
    urlPath := "/subscriptions/sub/resourceGroups/rg/providers/Microsoft.Storage/storageAccounts/acct/privateLinkResources"
    query := [("api-version", "2024-01-01")]
    headers := [("Accept", ["application/json"])] }

/-! ## Theorems -/

set_option maxRecDepth 20000

/-- Inserting the same key-value pair twice is the same as inserting it
once. -/
theorem setTag_setTag_self (k v : String) (m : List (String × String)) :
    setTag k v (setTag k v m) = setTag k v m := by
  induction m with
  | nil => simp [setTag]
  | cons p rest ih =>
      obtain ⟨k', v'⟩ := p
      by_cases h : k' = k
      · simp [setTag, h]
      · simp [setTag, h, ih]

/-- Claim C1: For every desired descriptor `d`, `CheckChanges(nil, d, nil)` —
the creation case — succeeds if and only if `d.Name` is non-nil; when
`d.Name` is nil it returns a validation error. -/
theorem checkChanges_creation_iff_name (d : Disk) :
    (Disk.CheckChanges none (some d) none = Except.ok () ↔ d.name ≠ none) ∧
    (d.name = none →
      ∃ msg, Disk.CheckChanges none (some d) none = Except.error msg) := by
  constructor
  · cases h : d.name <;> simp [Disk.CheckChanges, h]
  · intro h
    exact ⟨"Required field Name", by simp [Disk.CheckChanges, h]⟩

/-- Witness for C1: the test's desired disk is legal to create, and the
same disk with its name removed is rejected with a validation error. -/
theorem checkChanges_creation_iff_name_witness :
    (Disk.CheckChanges none (some testDisk) none = Except.ok () ↔
      testDisk.name ≠ none) ∧
    (∃ msg, Disk.CheckChanges none (some { testDisk with name := none }) none =
      Except.error msg) :=
  ⟨(checkChanges_creation_iff_name testDisk).1,
   (checkChanges_creation_iff_name { testDisk with name := none }).2 rfl⟩

/-- Claim C2: For every non-nil actual descriptor, every expected descriptor,
and every change set `c`, `CheckChanges(actual, expected, c)` — the update
case — succeeds if and only if `c.Name` is nil; a non-nil `c.Name` (an
attempted rename) yields a validation error, so once created the `Name` is
immutable under every legal change set. -/
theorem checkChanges_update_iff_no_rename (a : Disk) (e c : Option Disk) :
    (Disk.CheckChanges (some a) e c = Except.ok () ↔ changesName c = none) ∧
    (changesName c ≠ none →
      ∃ msg, Disk.CheckChanges (some a) e c = Except.error msg) := by
  cases c with
  | none => simp [Disk.CheckChanges, changesName]
  | some cd => cases h : cd.name <;> simp [Disk.CheckChanges, changesName, h]

/-- Witness for C2: with an existing resource, the empty-name change set of
the test is accepted and the renaming change set is rejected. -/
theorem checkChanges_update_iff_no_rename_witness :
    (Disk.CheckChanges (some testDisk) none (some { testDisk with name := none }) =
        Except.ok () ↔
      changesName (some { testDisk with name := none }) = none) ∧
    (∃ msg, Disk.CheckChanges (some testDisk) none
        (some { testDisk with name := some "newName" }) = Except.error msg) :=
  ⟨(checkChanges_update_iff_no_rename testDisk none
      (some { testDisk with name := none })).1,
   (checkChanges_update_iff_no_rename testDisk none
      (some { testDisk with name := some "newName" })).2 (by decide)⟩

/-- Claim C3: For every identity-only descriptor naming a resource that does
not exist remotely (the gateway reports NotFound for it), Find returns an
absent result together with a nil error: nonexistence is a normal outcome,
never reported as an error. -/
theorem find_absent_on_nonexistent (get : String → String → GetResult)
    (d : Disk) (g n : String)
    (hg : d.resourceGroup.bind ResourceGroup.name = some g)
    (hn : d.name = some n)
    (habs : get g n = GetResult.notFound) :
    Disk.Find get d = Except.ok none := by
  simp [Disk.Find, hg, hn, habs]

/-- Witness for C3: on an empty cloud, Find for the test's identity-only
descriptor returns absent with no error. -/
theorem find_absent_on_nonexistent_witness :
    Disk.Find (cloudGet []) testDiskIdentity = Except.ok none :=
  find_absent_on_nonexistent (cloudGet []) testDiskIdentity "rg" "disk"
    rfl rfl rfl

/-- Claim C4: Round-trip of apply then fetch: whatever the prior gateway
state, after a disk named `"disk"` of size 32 in group `"rg"` with tags
`{"key": "value"}` is created via the Cloud Gateway, Find on that identity
returns a non-nil descriptor whose Name, ResourceGroup.Name, SizeGB and
Tags equal exactly the values most recently applied. -/
theorem find_after_create_roundtrip (cloud : CloudState) :
    Disk.Find (cloudGet (cloudCreateOrUpdate cloud "rg" "disk" appliedRecord))
      testDiskIdentity =
      Except.ok (some
        { name := some "disk"
          lifecycle := Lifecycle.sync
          resourceGroup := some { name := some "rg" }
          sizeGB := some 32
          volumeType := none
          tags := [("key", "value")] }) := rfl

/-- Claim C5: Reconciling the test's fresh desired descriptor (caller tags
`{"key": "value"}`) under ambient cluster identity `"testCluster"` ends the
Normalize-then-Run pass with no error and with both the descriptor's and
the remote record's tag set equal to the union
`{"key": "value", TagClusterName: "testCluster"}`: the identity tag is
merged in and the caller-supplied value under `"key"` survives. -/
theorem run_merges_identity_tag :
    (Disk.Run "testCluster" "eastus" [] testDisk).error = none ∧
    (Disk.Run "testCluster" "eastus" [] testDisk).disk.tags =
      [("key", "value"), (TagClusterName, "testCluster")] ∧
    tagsGet (Disk.Run "testCluster" "eastus" [] testDisk).disk.tags "key" =
      some "value" ∧
    cloudGet (Disk.Run "testCluster" "eastus" [] testDisk).cloud "rg" "disk" =
      GetResult.found
        { name := "disk", location := "eastus", sizeGB := 32,
          tags := [("key", "value"), (TagClusterName, "testCluster")] } := by
  decide

/-- Claim C6: If CheckChanges rejects the proposed change set, Run fails
immediately: it issues zero create-or-update calls to the Cloud Gateway,
leaves the gateway state exactly as it was, and surfaces the specific
validation error to the caller. -/
theorem run_rejected_no_gateway_call
    (identityTagValue region : String) (cloud : CloudState) (d : Disk)
    (actual : Option Disk) (msg : String)
    (hfind : Disk.Find (cloudGet cloud) (Disk.Normalize identityTagValue d) =
      Except.ok actual)
    (hcheck : Disk.CheckChanges actual (some (Disk.Normalize identityTagValue d))
        (actual.map (fun a => Disk.diff a (Disk.Normalize identityTagValue d))) =
      Except.error msg) :
    Disk.Run identityTagValue region cloud d =
      { error := some msg, cloud := cloud, mutationCalls := 0,
        disk := Disk.Normalize identityTagValue d } := by
  simp [Disk.Run, hfind, hcheck]

/-- Witness for C6: running the test disk against a remote record of a
different name is a rename, which CheckChanges rejects; the pass reports
the validation error, makes no create-or-update call and leaves the
gateway state untouched. -/
theorem run_rejected_no_gateway_call_witness :
    Disk.Run "testCluster" "eastus" [(("rg", "disk"), renamedRecord)] testDisk =
      { error := some "Cannot change field Name"
        cloud := [(("rg", "disk"), renamedRecord)]
        mutationCalls := 0
        disk := Disk.Normalize "testCluster" testDisk } :=
  run_rejected_no_gateway_call "testCluster" "eastus"
    [(("rg", "disk"), renamedRecord)] testDisk (some renamedActual)
    "Cannot change field Name" (by decide) (by decide)

/-- Claim C7: Normalize is idempotent: for every descriptor `d` and ambient
identity, `Normalize(Normalize(d)) = Normalize(d)`. -/
theorem normalize_idempotent (identityTagValue : String) (d : Disk) :
    Disk.Normalize identityTagValue (Disk.Normalize identityTagValue d) =
      Disk.Normalize identityTagValue d := by
  simp [Disk.Normalize, setTag_setTag_self]

/-- Claim C8: CheckChanges is a pure guard: it is a function of its three
descriptor arguments alone (no Cloud Gateway state is read or written and
no argument is mutated — it returns only a verdict), and every outcome is
either success or a non-empty descriptive error. -/
theorem checkChanges_pure_guard (a e c : Option Disk) :
    Disk.CheckChanges a e c = Except.ok () ∨
      ∃ msg, Disk.CheckChanges a e c = Except.error msg ∧ msg ≠ "" := by
  cases a with
  | none =>
      cases e with
      | none => exact Or.inr ⟨"Required field Name", rfl, by decide⟩
      | some e' =>
          cases h : e'.name with
          | none =>
              refine Or.inr ⟨"Required field Name", ?_, by decide⟩
              simp [Disk.CheckChanges, h]
          | some n => exact Or.inl (by simp [Disk.CheckChanges, h])
  | some a' =>
      cases c with
      | none => exact Or.inl rfl
      | some cd =>
          cases h : cd.name with
          | none => exact Or.inl (by simp [Disk.CheckChanges, h])
          | some n =>
              refine Or.inr ⟨"Cannot change field Name", ?_, by decide⟩
              simp [Disk.CheckChanges, h]

/-- Claim C9: `listByStorageAccountCreateRequest` returns no request and an
error whenever `resourceGroupName`, `accountName` or the client's
`subscriptionID` is the empty string; otherwise it returns a GET request
whose URL path is the template with each of the three placeholders replaced
by the URL-path-escaped parameter value and whose query string carries
`api-version=2024-01-01`. -/
theorem createRequest_validation_and_shape
    (client : PrivateLinkResourcesClient) (rg acct : String) :
    ((rg = "" ∨ acct = "" ∨ client.subscriptionID = "") →
      ∃ msg, listByStorageAccountCreateRequest client rg acct =
        Except.error msg) ∧
    (rg ≠ "" → acct ≠ "" → client.subscriptionID ≠ "" →
      listByStorageAccountCreateRequest client rg acct =
        Except.ok
          { method := "GET"
            urlPath := replaceAll (replaceAll (replaceAll urlPathTemplate
                "\x7bresourceGroupName\x7d" (pathEscape rg))
                "\x7baccountName\x7d" (pathEscape acct))
                "\x7bsubscriptionId\x7d" (pathEscape client.subscriptionID)
            query := [("api-version", "2024-01-01")]
            headers := [("Accept", ["application/json"])] }) := by
  constructor
  · intro h
    by_cases hrg : rg = ""
    · exact ⟨"parameter resourceGroupName cannot be empty",
        by simp [listByStorageAccountCreateRequest, hrg]⟩
    · by_cases hacct : acct = ""
      · exact ⟨"parameter accountName cannot be empty",
          by simp [listByStorageAccountCreateRequest, hrg, hacct]⟩
      · have hsub : client.subscriptionID = "" := by tauto
        exact ⟨"parameter client.subscriptionID cannot be empty",
          by simp [listByStorageAccountCreateRequest, hrg, hacct, hsub]⟩
  · intro hrg hacct hsub
    simp [listByStorageAccountCreateRequest, hrg, hacct, hsub]

/-- Witness for C9: an empty resource group is rejected, and for
`("sub", "rg", "acct")` the built request is the GET on the fully
substituted path with the `api-version` query parameter. -/
theorem createRequest_validation_and_shape_witness :
    (∃ msg, listByStorageAccountCreateRequest ⟨"sub"⟩ "" "acct" =
      Except.error msg) ∧
    listByStorageAccountCreateRequest ⟨"sub"⟩ "rg" "acct" =
      Except.ok
        { method := "GET"
          urlPath := "/subscriptions/sub/resourceGroups/rg/providers/Microsoft.Storage/storageAccounts/acct/privateLinkResources"
          query := [("api-version", "2024-01-01")]
          headers := [("Accept", ["application/json"])] } :=
  ⟨(createRequest_validation_and_shape ⟨"sub"⟩ "" "acct").1 (Or.inl rfl),
   by
    have h := (createRequest_validation_and_shape ⟨"sub"⟩ "rg" "acct").2
      (by decide) (by decide) (by decide)
    rw [h]
    decide⟩

/-- Claim C10: `ListByStorageAccount` returns the zero-valued response struct
paired with a non-nil error in each of its three failure branches — request
creation fails, the pipeline call fails, or the HTTP status is anything
other than 200 OK — and consults the JSON unmarshaller only when the status
is exactly 200 (off that path its output is independent of the
unmarshaller). -/
theorem listByStorageAccount_failure_branches
    (client : PrivateLinkResourcesClient) (rg acct : String)
    (pipeline : Request → PipelineResult)
    (unmarshal unmarshal' : String → Except String PrivateLinkResourceListResult) :
    (∀ msg, listByStorageAccountCreateRequest client rg acct = Except.error msg →
      ListByStorageAccount client rg acct pipeline unmarshal =
        (zeroListByStorageAccountResponse, some msg)) ∧
    (∀ req msg, listByStorageAccountCreateRequest client rg acct = Except.ok req →
      pipeline req = PipelineResult.failure msg →
      ListByStorageAccount client rg acct pipeline unmarshal =
        (zeroListByStorageAccountResponse, some msg)) ∧
    (∀ req statusCode body,
      listByStorageAccountCreateRequest client rg acct = Except.ok req →
      pipeline req = PipelineResult.response statusCode body →
      statusCode ≠ 200 →
      ListByStorageAccount client rg acct pipeline unmarshal =
        (zeroListByStorageAccountResponse,
          some (responseErrorMessage statusCode))) ∧
    ((¬ ∃ req body,
        listByStorageAccountCreateRequest client rg acct = Except.ok req ∧
        pipeline req = PipelineResult.response 200 body) →
      ListByStorageAccount client rg acct pipeline unmarshal =
        ListByStorageAccount client rg acct pipeline unmarshal') := by
  refine ⟨?_, ?_, ?_, ?_⟩
  · intro msg h
    simp [ListByStorageAccount, h]
  · intro req msg h hp
    simp [ListByStorageAccount, h, hp]
  · intro req statusCode body h hp hne
    simp [ListByStorageAccount, h, hp, hne]
  · intro hno
    cases hcr : listByStorageAccountCreateRequest client rg acct with
    | error e => simp [ListByStorageAccount, hcr]
    | ok req =>
        cases hp : pipeline req with
        | failure e => simp [ListByStorageAccount, hcr, hp]
        | response statusCode body =>
            have hst : statusCode ≠ 200 := by
              intro h200
              exact hno ⟨req, body, hcr, by rw [← h200]; exact hp⟩
            simp [ListByStorageAccount, hcr, hp, hst]

/-- Witness for C10: a pipeline answering 404 makes `ListByStorageAccount`
return the zero response and the response error, with the unmarshaller
never consulted. -/
theorem listByStorageAccount_failure_branches_witness :
    ListByStorageAccount ⟨"sub"⟩ "rg" "acct"
        (fun _ => PipelineResult.response 404 "")
        (fun _ => Except.error "unreached") =
      (zeroListByStorageAccountResponse, some (responseErrorMessage 404)) :=
  (listByStorageAccount_failure_branches ⟨"sub"⟩ "rg" "acct"
      (fun _ => PipelineResult.response 404 "")
      (fun _ => Except.error "unreached")
      (fun _ => Except.error "unreached")).2.2.1
    builtRequest 404 "" (by decide) rfl (by decide)

end KopsAzure
